import Mathlib

/-!
Verification of the todo-list controller of this repository.

The list view (`src/todo-app/src/pages/TodoList.tsx`) owns an in-memory
collection of todos fetched from a REST backend and offers create, update
and delete operations, plus a pure filter/search/pagination read path.
The detail view (the unnamed source `part_001`) owns a single todo and a
completion toggle. Both are shallowly embedded below: each handler becomes
a pure function of the prior state and of the network response it awaited,
returning the new state together with the user-visible effects (error
notifications, success modal, whether a request was issued at all).
-/

namespace TodoApp

/-- Filter status of the list view (`type FilterStatus` in TodoList.tsx). -/
inductive FilterStatus where
  | all
  | completed
  | incomplete
deriving DecidableEq, Repr

/-- A todo record as the list view types it (`interface Todo` in
TodoList.tsx): numeric `id` and `userId`, a `title`, a `completed` flag.
JavaScript numbers are modelled as integers. -/
structure Todo where
  id : Int
  title : String
  completed : Bool
  userId : Int
deriving DecidableEq, Repr

/-- The add/edit form values (`interface TodoFormValues`): `completed`
is optional in the source, hence `Option Bool`. -/
structure TodoFormValues where
  title : String
  completed : Option Bool
deriving DecidableEq, Repr

/-- The part of an axios error response the handlers read: `status`,
`statusText` (the empty string models a falsy/absent statusText) and
`response.data.message` when the body carries a structured message. -/
structure AxResponse where
  status : Int
  statusText : String
  dataMessage : Option String
deriving DecidableEq, Repr

/-- A JavaScript error as the catch blocks discriminate it: an axios error
(with an optional response, a flag telling whether a request object exists,
and its `message`), a plain `Error`, or a non-`Error` thrown value. -/
inductive JsError where
  | axios (response : Option AxResponse) (requestPresent : Bool) (message : String)
  | plain (message : String)
  | other
deriving DecidableEq, Repr

/-- An antd `notification.error` call: heading (`message:`) and body
(`description:`). -/
structure ErrNote where
  heading : String
  body : String
deriving DecidableEq, Repr

/-- The observable outcome of one mutation handler: the new collection,
the error notifications raised, the success modal shown (its title), whether
an HTTP request was issued, and whether a client-side field-validation
message was shown instead of submitting. -/
structure OpResult where
  todos : List Todo
  errorNotes : List ErrNote
  successModal : Option String
  requestIssued : Bool
  validationMessageShown : Bool
deriving DecidableEq, Repr

/-- `err instanceof Error ? err.message : fallback` — the error-message
expression shared by the three mutation handlers' catch blocks. An axios
error is an `Error`, so both `axios` and `plain` yield their `message`. -/
def errInstanceMessage (fallback : String) : JsError → String
  | .axios _ _ m => m
  | .plain m => m
  | .other => fallback

/-- `Math.max(...todos.map((t) => t.id), 200)` from `handleAddTodo`
(TodoList.tsx line 122): the maximum of all current ids and the floor 200. -/
def maxId (todos : List Todo) : Int :=
  todos.foldl (fun m t => max m t.id) 200

/-- `handleAddTodo` (TodoList.tsx lines 113-139), as a function of the
collection, the submitted form values and the awaited POST response.
On success the response body's id is overridden with `maxId todos + 1`
and the record is prepended; on failure the collection is untouched and
one error notification is raised. -/
def handleAddTodo (todos : List Todo) (values : TodoFormValues)
    (resp : Except JsError Todo) : OpResult :=
  match resp with
  | .ok r =>
      let newTodo : Todo := { r with id := maxId todos + 1 }
      { todos := newTodo :: todos
        errorNotes := []
        successModal := some "Todo Added Successfully!"
        requestIssued := true
        validationMessageShown := false }
  | .error e =>
      { todos := todos
        errorNotes := [{ heading := "Add Todo Failed", body := errInstanceMessage "Could not add todo." e }]
        successModal := none
        requestIssued := true
        validationMessageShown := false }

/-- The antd/async-validator `required` rule on a string field, as the add
and edit forms configure it (`rules=[{ required: true, message: ... }]`,
TodoList.tsx lines 483-485). With the `whitespace` option unset (the
default, and what the source writes) a string value fails the rule only
when it is the empty string; only with `whitespace: true` would an
all-whitespace value also fail. -/
def requiredRulePasses (whitespaceFlag : Bool) (value : String) : Bool :=
  if value = "" then false
  else if whitespaceFlag && value.trim = "" then false
  else true

/-- The add form's title rule is `{ required: true }` with no `whitespace`
option, so validation passes exactly when the title is non-empty. -/
def addFormValidates (title : String) : Bool :=
  requiredRulePasses false title

/-- Submitting the add form: antd runs the field rules and calls the
`onFinish` handler `handleAddTodo` only when they pass; otherwise the
field-level message is shown, no request is issued, and state is untouched. -/
def submitAddForm (todos : List Todo) (title : String)
    (resp : Except JsError Todo) : OpResult :=
  if addFormValidates title then
    handleAddTodo todos { title := title, completed := some false } resp
  else
    { todos := todos
      errorNotes := []
      successModal := none
      requestIssued := false
      validationMessageShown := true }

/-- `updatedTodoData` from `handleUpdateTodo` (TodoList.tsx lines 150-155):
the optimistic record merged from the todo being edited and the form
values; `values.completed || false` becomes `getD false`. -/
def updatedTodoData (editingTodo : Todo) (values : TodoFormValues) : Todo :=
  { id := editingTodo.id
    title := values.title
    completed := values.completed.getD false
    userId := editingTodo.userId }

/-- `handleUpdateTodo` (TodoList.tsx lines 147-176). `if (!editingTodo)
return;` guards the whole body. On success the collection maps the record
whose id matches to the optimistic `updatedTodoData`; the PUT response body
(`resp`'s payload) is never read. On failure the collection is untouched
and one error notification is raised. -/
def handleUpdateTodo (todos : List Todo) (editingTodo : Option Todo)
    (values : TodoFormValues) (resp : Except JsError Todo) : OpResult :=
  match editingTodo with
  | none =>
      { todos := todos
        errorNotes := []
        successModal := none
        requestIssued := false
        validationMessageShown := false }
  | some et =>
      match resp with
      | .ok _r =>
          { todos := todos.map (fun t => if t.id = et.id then updatedTodoData et values else t)
            errorNotes := []
            successModal := some "Todo Edited Successfully!"
            requestIssued := true
            validationMessageShown := false }
      | .error e =>
          { todos := todos
            errorNotes := [{ heading := "Todo Update Failed", body := errInstanceMessage "Could not update todo." e }]
            successModal := none
            requestIssued := true
            validationMessageShown := false }

/-- `handleConfirmDelete` (TodoList.tsx lines 183-204). The guard
`if (!deletingTodoId) return;` tests JavaScript falsiness: both `null`
(here `none`) and the number `0` are falsy, so both return silently with
no request, no state change and no notification. Otherwise, on success the
record with the pending id is filtered out; on failure the collection is
untouched and one error notification is raised. -/
def handleConfirmDelete (todos : List Todo) (deletingTodoId : Option Int)
    (resp : Except JsError Unit) : OpResult :=
  match deletingTodoId with
  | none =>
      { todos := todos
        errorNotes := []
        successModal := none
        requestIssued := false
        validationMessageShown := false }
  | some i =>
      if i = 0 then
        { todos := todos
          errorNotes := []
          successModal := none
          requestIssued := false
          validationMessageShown := false }
      else
        match resp with
        | .ok _ =>
            { todos := todos.filter (fun t => t.id != i)
              errorNotes := []
              successModal := some "Todo Deleted Successfully!"
              requestIssued := true
              validationMessageShown := false }
        | .error e =>
            { todos := todos
              errorNotes := [{ heading := "Sorry, Delete Failed", body := errInstanceMessage "Could not delete todo." e }]
              successModal := none
              requestIssued := true
              validationMessageShown := false }

/-- The view state the read path and the pagination handlers touch.
`currentPage` is an arbitrary integer because `paginate` stores its argument
without any range check. -/
structure ViewState where
  currentPage : Int
  searchTerm : String
  filterStatus : FilterStatus
deriving DecidableEq, Repr

/-- `paginate` (TodoList.tsx line 235): `setCurrentPage(pageNumber)`, with
no guard of any kind. -/
def paginate (st : ViewState) (pageNumber : Int) : ViewState :=
  { st with currentPage := pageNumber }

/-- Clicking the Previous button (TodoList.tsx lines 443-450): the button
is disabled when `currentPage === 1`, so a click has an effect only
otherwise, and then calls `paginate(currentPage - 1)`. -/
def clickPrev (st : ViewState) : ViewState :=
  if st.currentPage = 1 then st else paginate st (st.currentPage - 1)

/-- Clicking the Next button (TodoList.tsx lines 454-461): disabled when
`currentPage === totalPages || totalPages === 0`; otherwise calls
`paginate(currentPage + 1)`. -/
def clickNext (st : ViewState) (totalPages : Int) : ViewState :=
  if st.currentPage = totalPages ∨ totalPages = 0 then st
  else paginate st (st.currentPage + 1)

/-- The React effect `useEffect(() => setCurrentPage(1), [searchTerm,
filterStatus])` (TodoList.tsx lines 231-233) combined with setState
change-detection: setting the search term to its current value re-renders
nothing and the effect does not re-run; setting it to a different value
updates the dependency and the effect resets `currentPage` to 1. -/
def setSearch (st : ViewState) (term : String) : ViewState :=
  if term = st.searchTerm then st
  else { st with searchTerm := term, currentPage := 1 }

/-- The same effect triggered through the filter dropdown
(`handleFilterMenuClick`, TodoList.tsx lines 291-293). -/
def setFilter (st : ViewState) (fs : FilterStatus) : ViewState :=
  if fs = st.filterStatus then st
  else { st with filterStatus := fs, currentPage := 1 }

/-- `title.toLowerCase().includes(searchTerm.toLowerCase())` from the
search filter (TodoList.tsx line 217): case-insensitive substring test,
needle second. -/
def strIncludesCI (haystack needle : String) : Bool :=
  decide (needle.toLower.data <:+: haystack.toLower.data)

/-- `filteredAndSearchedTodos` (TodoList.tsx lines 206-221): filter by
status (two `if` branches, identity for `all`), then — only when
`searchTerm` is truthy, i.e. non-empty — filter by case-insensitive title
substring. -/
def filteredAndSearchedTodos (todos : List Todo) (fs : FilterStatus)
    (term : String) : List Todo :=
  let filtered := todos
  let filtered :=
    if fs = .completed then filtered.filter (fun t => t.completed)
    else if fs = .incomplete then filtered.filter (fun t => !t.completed)
    else filtered
  if term ≠ "" then filtered.filter (fun t => strIncludesCI t.title term)
  else filtered

/-- `todosPerPage` (TodoList.tsx line 67). -/
def todosPerPage : Nat := 10

/-- JavaScript `Array.prototype.slice(start, stop)` on a list: negative
indices count from the end, and both bounds are clamped to `[0, length]`. -/
def jsSlice {α : Type} (l : List α) (start stop : Int) : List α :=
  let n : Int := l.length
  let s : Int := if start < 0 then max (n + start) 0 else min start n
  let e : Int := if stop < 0 then max (n + stop) 0 else min stop n
  (l.drop s.toNat).take (e.toNat - s.toNat)

/-- `currentTodos` (TodoList.tsx lines 223-228):
`filteredAndSearchedTodos.slice((currentPage-1)*10, currentPage*10)`. -/
def currentTodos (todos : List Todo) (fs : FilterStatus) (term : String)
    (currentPage : Int) : List Todo :=
  let indexOfLastTodo : Int := currentPage * todosPerPage
  let indexOfFirstTodo : Int := indexOfLastTodo - todosPerPage
  jsSlice (filteredAndSearchedTodos todos fs term) indexOfFirstTodo indexOfLastTodo

/-- `Math.ceil(list.length / todosPerPage)` (TodoList.tsx line 229). -/
def totalPagesOf (l : List Todo) : Nat :=
  (l.length + (todosPerPage - 1)) / todosPerPage

/-- Spec-side status filter, written from the spec's words: "filter by
status (no-op if `all`)". For comparison with the source pipeline only. -/
def specStatusFilter (todos : List Todo) (fs : FilterStatus) : List Todo :=
  match fs with
  | .all => todos
  | .completed => todos.filter (fun t => t.completed)
  | .incomplete => todos.filter (fun t => !t.completed)

/-- Spec-side search filter, from the spec's words: "filter by
case-insensitive title substring match (no-op if `searchTerm` empty)". -/
def specSearchFilter (todos : List Todo) (term : String) : List Todo :=
  if term = "" then todos
  else todos.filter (fun t => strIncludesCI t.title term)

/-- Spec-side visible page, from the spec's words: the doubly filtered list
"sliced into the page `[(currentPage-1)*pageSize, currentPage*pageSize)`",
with `pageSize = 10`. Meaningful for `currentPage ≥ 1`. -/
def specVisiblePage (todos : List Todo) (fs : FilterStatus) (term : String)
    (currentPage : Int) : List Todo :=
  (((specSearchFilter (specStatusFilter todos fs) term).drop
      (((currentPage - 1) * 10).toNat)).take 10)

/-- A rendered pagination item: a numbered button or an ellipsis span. -/
inductive PageItem where
  | num (n : Nat)
  | dots
deriving DecidableEq, Repr

/-- The `startPage`/`endPage` computation of `renderPageNumbers`
(TodoList.tsx lines 246-251), for the `totalPages > 5` branch:
`startPage = Math.max(1, currentPage - 2)`,
`endPage = Math.min(totalPages, startPage + 4)`, and when `endPage`
lands on the last page `startPage` is re-anchored to
`Math.max(1, totalPages - 4)`. Pages are modelled as naturals; for
`currentPage ≥ 1` truncated subtraction agrees with JavaScript. -/
def pageWindow (totalPages currentPage : Nat) : Nat × Nat :=
  let startPage := max 1 (currentPage - 2)
  let endPage := min totalPages (startPage + 4)
  let startPage := if endPage = totalPages then max 1 (totalPages - 4) else startPage
  (startPage, endPage)

/-- `renderPageNumbers` (TodoList.tsx lines 237-265), returning the list of
page items in render order. For `totalPages ≤ 5` the numbers 1..totalPages;
otherwise the window `startPage..endPage`, prefixed by `1` (and an ellipsis
when `startPage > 2`) whenever `startPage > 1`, and suffixed by the last
page (and an ellipsis when `endPage < totalPages - 1`) whenever
`endPage < totalPages`. -/
def renderPageNumbers (totalPages currentPage : Nat) : List PageItem :=
  if totalPages ≤ 5 then
    (List.range' 1 totalPages).map PageItem.num
  else
    let w := pageWindow totalPages currentPage
    let core := (List.range' w.1 (w.2 + 1 - w.1)).map PageItem.num
    let withLead :=
      if 1 < w.1 then
        (if 2 < w.1 then [PageItem.num 1, PageItem.dots] else [PageItem.num 1]) ++ core
      else core
    if w.2 < totalPages then
      withLead ++ (if w.2 < totalPages - 1 then [PageItem.dots, PageItem.num totalPages]
                   else [PageItem.num totalPages])
    else withLead

/-- The error-message normalization of the initial load's catch block
(`fetchTodos`, TodoList.tsx lines 83-98). The message starts as the
generic fallback and is replaced branch by branch: a response present
yields `Error: {status} - {statusText || "Server Error"}`; a request with
no response yields the fixed network message; an axios error with neither
yields its `message`; a plain `Error` yields its `message`. The response
body is never consulted here. -/
def fetchTodosErrorMessage : JsError → String
  | .axios (some r) _ _ =>
      "Error: " ++ toString r.status ++ " - "
        ++ (if r.statusText = "" then "Server Error" else r.statusText)
  | .axios none true _ => "Network error. No response received from server."
  | .axios none false m => m
  | .plain m => m
  | .other => "Oops! Failed to load todos."

/-- `axiosError.response?.data?.message` as the detail view's catch blocks
read it (part_001 lines 41-47, 65-71): present only when a response with a
structured body message exists. -/
def jsErrDataMessage : JsError → Option String
  | .axios (some r) _ _ => r.dataMessage
  | _ => none

/-- `axiosError.message` (the empty string models a falsy/absent message,
as for a non-`Error` thrown value cast to `AxiosError`). -/
def jsErrMessage : JsError → String
  | .axios _ _ m => m
  | .plain m => m
  | .other => ""

/-- JavaScript truthiness selection `a ? a : b` on strings. -/
def truthyOr (s fallback : String) : String :=
  if s = "" then fallback else s

/-- The detail view's error normalization (part_001, `fetchTodo` catch,
lines 41-47): prefer the structured response-body message, else the
transport-level `message`, else the generic fallback. -/
def fetchTodoErrorMessage (e : JsError) : String :=
  truthyOr ((jsErrDataMessage e).getD "")
    (truthyOr (jsErrMessage e) "An unexpected error occurred")

/-- The same chain in `handleToggleComplete` (part_001 lines 65-71), with
its own final fallback string. -/
def toggleCompleteErrorMessage (e : JsError) : String :=
  truthyOr ((jsErrDataMessage e).getD "")
    (truthyOr (jsErrMessage e) "Failed to update todo")

/-- A todo as the detail view types it (part_001 `interface Todo`): string
ids and an extra `message` field. -/
structure DTodo where
  id : String
  title : String
  message : String
  userId : String
  completed : Bool
deriving DecidableEq, Repr

/-- The detail view's state: the loaded todo (or `null`) and the error
string ('' when none). -/
structure DetailState where
  todo : Option DTodo
  errorMsg : String
deriving DecidableEq, Repr

/-- `handleToggleComplete` (part_001 lines 57-75) as a function of the
state and the awaited PUT response; the second component is the request
payload sent (`none` when the `if (!todo) return` guard fired). On success
the state adopts `response.data` — the response body — wholesale; on
failure the todo is untouched and the error string is set. The response
is typed, so a well-formed body is assumed as in the source's
`axios.put<Todo>`. -/
def handleToggleComplete (st : DetailState) (resp : Except JsError DTodo) :
    DetailState × Option DTodo :=
  match st.todo with
  | none => (st, none)
  | some t =>
      let payload : DTodo := { t with completed := !t.completed }
      match resp with
      | .ok r => ({ st with todo := some r }, some payload)
      | .error e => ({ st with errorMsg := toggleCompleteErrorMessage e }, some payload)

/-! Concrete records used by witnesses and counterexamples. -/

/-- A concrete incomplete todo. -/
def tA : Todo := { id := 1, title := "Buy milk", completed := false, userId := 1 }

/-- A concrete completed todo. -/
def tB : Todo := { id := 2, title := "Clean", completed := true, userId := 1 }

/-- A concrete create-response body (its id is deliberately arbitrary). -/
def serverEcho : Todo := { id := 201, title := "Walk dog", completed := false, userId := 1 }

/-- A concrete, well-formed PUT-response body for id 1 that differs from
the optimistic merge in both title and completed flag. -/
def serverUpd : Todo := { id := 1, title := "server title", completed := true, userId := 1 }

/-- Concrete form values. -/
def valsB : TodoFormValues := { title := "Walk dog", completed := some false }

/-- A concrete view state at page 1. -/
def st0 : ViewState := { currentPage := 1, searchTerm := "", filterStatus := .all }

/-- A concrete detail-view todo. -/
def dA : DTodo :=
  { id := "1", title := "Complete project documentation", message := "docs"
    userId := "user123", completed := false }

/-- A concrete detail-view PUT-response body. -/
def dSrv : DTodo :=
  { id := "1", title := "Complete project documentation", message := "docs"
    userId := "user123", completed := true }

/-- A concrete detail-view state holding `dA`. -/
def dState : DetailState := { todo := some dA, errorMsg := "" }

/-- A concrete server failure whose response body carries the structured
message "boom" while the status line reads 500 / Internal Server Error. -/
def respWithBodyMessage : JsError :=
  .axios (some { status := 500, statusText := "Internal Server Error", dataMessage := some "boom" })
    true "Request failed with status code 500"

/-! Helper lemmas about `maxId`. -/

/-- The seed of the running maximum never exceeds the fold's result. -/
theorem le_foldl_max_init (l : List Todo) (init : Int) :
    init ≤ l.foldl (fun m u => max m u.id) init := by
  induction l generalizing init with
  | nil => simp
  | cons a l ih => exact le_trans (le_max_left _ _) (ih (max init a.id))

/-- Every member's id is bounded by the fold's result. -/
theorem mem_le_foldl_max (l : List Todo) (init : Int) (t : Todo) (ht : t ∈ l) :
    t.id ≤ l.foldl (fun m u => max m u.id) init := by
  induction l generalizing init with
  | nil => cases ht
  | cons a l ih =>
      rcases List.mem_cons.mp ht with h | h
      · subst h
        exact le_trans (le_max_right init t.id) (le_foldl_max_init l (max init t.id))
      · exact ih (max init a.id) h

/-- C1: a successful create assigns the new todo the id
`max(existing ids, 200) + 1` regardless of the id the response body
carried, this id is strictly greater than every id currently in the
collection (preserving id uniqueness), and the new record is prepended. -/
theorem C1_create_synthesizes_fresh_id :
    ∀ (todos : List Todo) (values : TodoFormValues) (r : Todo),
      (handleAddTodo todos values (.ok r)).todos
          = ({ r with id := maxId todos + 1 }) :: todos
        ∧ (∀ t, t ∈ todos → t.id < maxId todos + 1) := by
  intro todos values r
  refine ⟨rfl, fun t ht => ?_⟩
  have h : t.id ≤ maxId todos := mem_le_foldl_max todos 200 t ht
  omega

/-- Witness for C1 at a concrete two-element collection. -/
theorem C1_create_synthesizes_fresh_id_witness :
    (handleAddTodo [tA, tB] valsB (.ok serverEcho)).todos
        = ({ serverEcho with id := maxId [tA, tB] + 1 }) :: [tA, tB]
      ∧ tA.id < maxId [tA, tB] + 1 :=
  ⟨(C1_create_synthesizes_fresh_id [tA, tB] valsB serverEcho).1,
   (C1_create_synthesizes_fresh_id [tA, tB] valsB serverEcho).2 tA (by decide)⟩

/-- C2 fails on the list view: `handleUpdateTodo` never reads the PUT
response body. Here the body `serverUpd` is a well-formed todo record for
id 1, yet the collection does not adopt it — it keeps the optimistic
merge of the form values instead. -/
theorem C2_counterexample :
    (handleUpdateTodo [tA] (some tA) valsB (.ok serverUpd)).todos ≠ [serverUpd]
      ∧ (handleUpdateTodo [tA] (some tA) valsB (.ok serverUpd)).todos
          = [updatedTodoData tA valsB] := by
  constructor
  · decide
  · decide

/-- C2 (amended): on a successful update the list view ignores the response
body entirely — the outcome is identical for any two response bodies — and
replaces exactly the records whose id matches by the optimistic merged
value, keeping all others; the detail view's toggle, by contrast, always
adopts the response body. -/
theorem C2_update_reconciliation :
    (∀ todos et values r₁ r₂,
        handleUpdateTodo todos (some et) values (.ok r₁)
          = handleUpdateTodo todos (some et) values (.ok r₂))
      ∧ (∀ todos et values r,
          ((handleUpdateTodo todos (some et) values (.ok r)).todos).length = todos.length)
      ∧ (∀ todos et values r t, t ∈ todos → t.id ≠ et.id →
          t ∈ (handleUpdateTodo todos (some et) values (.ok r)).todos)
      ∧ (∀ todos et values r t, t ∈ todos → t.id = et.id →
          updatedTodoData et values ∈ (handleUpdateTodo todos (some et) values (.ok r)).todos)
      ∧ (∀ st t r, st.todo = some t →
          (handleToggleComplete st (.ok r)).1.todo = some r) := by
  refine ⟨fun _ _ _ _ _ => rfl, fun todos et values r => ?_, ?_, ?_, ?_⟩
  · simp [handleUpdateTodo]
  · intro todos et values r t ht hne
    have := List.mem_map_of_mem
      (fun t => if t.id = et.id then updatedTodoData et values else t) ht
    simpa [handleUpdateTodo, if_neg hne] using this
  · intro todos et values r t ht heq
    have := List.mem_map_of_mem
      (fun t => if t.id = et.id then updatedTodoData et values else t) ht
    simpa [handleUpdateTodo, if_pos heq] using this
  · intro st t r h
    simp [handleToggleComplete, h]

/-- Witness for C2 (amended) at concrete inputs. -/
theorem C2_update_reconciliation_witness :
    tB ∈ (handleUpdateTodo [tA, tB] (some tA) valsB (.ok serverUpd)).todos
      ∧ updatedTodoData tA valsB ∈ (handleUpdateTodo [tA, tB] (some tA) valsB (.ok serverUpd)).todos
      ∧ (handleToggleComplete dState (.ok dSrv)).1.todo = some dSrv :=
  ⟨C2_update_reconciliation.2.2.1 [tA, tB] tA valsB serverUpd tB (by decide) (by decide),
   C2_update_reconciliation.2.2.2.1 [tA, tB] tA valsB serverUpd tA (by decide) (by decide),
   C2_update_reconciliation.2.2.2.2 dState dA dSrv rfl⟩

/-- C3 fails on the code: the add form's title rule is `{ required: true }`
without the `whitespace` option, so the whitespace-only title "  " passes
validation — a request IS issued and on success the todo is added, so the
collection changes. -/
theorem C3_counterexample :
    (submitAddForm [] "  " (.ok serverEcho)).requestIssued = true
      ∧ (submitAddForm [] "  " (.ok serverEcho)).todos ≠ [] := by
  constructor
  · decide
  · decide

/-- C3 (amended): only the strictly empty title is rejected client-side —
with a field-level validation message, no request issued and the collection
unchanged; any non-empty title, whitespace-only included, passes the
required rule and the create request is issued. -/
theorem C3_only_empty_title_rejected :
    (∀ todos resp, submitAddForm todos "" resp
        = { todos := todos, errorNotes := [], successModal := none,
            requestIssued := false, validationMessageShown := true })
      ∧ (∀ todos title resp, title ≠ "" →
          (submitAddForm todos title resp).requestIssued = true) := by
  constructor
  · intro todos resp
    rfl
  · intro todos title resp h
    have hv : addFormValidates title = true := by
      simp [addFormValidates, requiredRulePasses, h]
    cases resp with
    | ok r => simp [submitAddForm, hv, handleAddTodo]
    | error e => simp [submitAddForm, hv, handleAddTodo]

/-- Witness for C3 (amended): the empty title issues no request, the
whitespace-only title does. -/
theorem C3_only_empty_title_rejected_witness :
    (submitAddForm [tA] "" (.ok serverEcho)).requestIssued = false
      ∧ (submitAddForm [tA] "  " (.ok serverEcho)).requestIssued = true :=
  ⟨by rw [C3_only_empty_title_rejected.1 [tA] (.ok serverEcho)],
   C3_only_empty_title_rejected.2 [tA] "  " (.ok serverEcho) (by decide)⟩

/-- C4 fails on the code: `paginate` is `setCurrentPage(pageNumber)` with
no range guard, so calling it with the out-of-range page 0 (below 1) does
change `currentPage`. -/
theorem C4_counterexample :
    (paginate st0 0).currentPage ≠ st0.currentPage := by
  decide

/-- C4 (amended): `paginate` unconditionally stores its argument; range
enforcement lives only in the buttons — Previous is disabled at page 1 and
otherwise moves to `currentPage - 1`, Next is disabled at `totalPages` (or
when `totalPages` is 0) and otherwise moves to `currentPage + 1` — so a
click never moves `currentPage` below 1 or above `totalPages`. -/
theorem C4_navigation_guarded_by_disabled_buttons :
    (∀ st n, (paginate st n).currentPage = n)
      ∧ (∀ st, 1 ≤ st.currentPage → 1 ≤ (clickPrev st).currentPage)
      ∧ (∀ st tp, st.currentPage ≤ tp → (clickNext st tp).currentPage ≤ tp) := by
  refine ⟨fun st n => rfl, ?_, ?_⟩
  · intro st h
    unfold clickPrev
    split
    · exact h
    · rename_i hne
      simp only [paginate]
      omega
  · intro st tp h
    unfold clickNext
    split
    · exact h
    · rename_i hne
      simp only [paginate]
      omega

/-- Witness for C4 (amended) at concrete states. -/
theorem C4_navigation_guarded_by_disabled_buttons_witness :
    (paginate st0 5).currentPage = 5
      ∧ 1 ≤ (clickPrev st0).currentPage
      ∧ (clickNext st0 3).currentPage ≤ 3 :=
  ⟨C4_navigation_guarded_by_disabled_buttons.1 st0 5,
   C4_navigation_guarded_by_disabled_buttons.2.1 st0 (by decide),
   C4_navigation_guarded_by_disabled_buttons.2.2 st0 3 (by decide)⟩

/-- C6: changing `searchTerm` or changing `filterStatus` (to a value
different from the current one, which is what a change is) resets
`currentPage` to 1. -/
theorem C6_change_resets_current_page :
    (∀ st term, term ≠ st.searchTerm → (setSearch st term).currentPage = 1)
      ∧ (∀ st fs, fs ≠ st.filterStatus → (setFilter st fs).currentPage = 1) := by
  constructor
  · intro st term h
    simp [setSearch, h]
  · intro st fs h
    simp [setFilter, h]

/-- Witness for C6 at a concrete state. -/
theorem C6_change_resets_current_page_witness :
    (setSearch (paginate st0 7) "milk").currentPage = 1
      ∧ (setFilter (paginate st0 7) .completed).currentPage = 1 :=
  ⟨C6_change_resets_current_page.1 (paginate st0 7) "milk" (by decide),
   C6_change_resets_current_page.2 (paginate st0 7) .completed (by decide)⟩

/-- C7: when a create, update or delete request fails, the collection is
exactly what it was before (no partial insert, the targeted record keeps
its pre-update value, the delete target remains) and exactly one error
notification is raised. For delete, the failure presupposes a request was
issued, i.e. a non-falsy pending id. -/
theorem C7_failure_is_all_or_nothing :
    (∀ todos values e,
        (handleAddTodo todos values (.error e)).todos = todos
          ∧ (handleAddTodo todos values (.error e)).errorNotes.length = 1)
      ∧ (∀ todos et values e,
          (handleUpdateTodo todos (some et) values (.error e)).todos = todos
            ∧ (handleUpdateTodo todos (some et) values (.error e)).errorNotes.length = 1)
      ∧ (∀ todos i e, i ≠ 0 →
          (handleConfirmDelete todos (some i) (.error e)).todos = todos
            ∧ (handleConfirmDelete todos (some i) (.error e)).errorNotes.length = 1) := by
  refine ⟨fun _ _ _ => ⟨rfl, rfl⟩, fun _ _ _ _ => ⟨rfl, rfl⟩, ?_⟩
  intro todos i e h
  simp [handleConfirmDelete, h]

/-- Witness for C7: a failing delete of id 2 leaves the collection intact
and raises one notification. -/
theorem C7_failure_is_all_or_nothing_witness :
    (handleConfirmDelete [tA, tB] (some 2) (.error (.plain "Network Error"))).todos = [tA, tB]
      ∧ (handleConfirmDelete [tA, tB] (some 2) (.error (.plain "Network Error"))).errorNotes.length = 1 :=
  C7_failure_is_all_or_nothing.2.2 [tA, tB] 2 (.plain "Network Error") (by decide)

/-- C10: the guard `if (!deletingTodoId) return;` tests JavaScript
falsiness, so both a pending id of 0 and no pending id make the confirm
handler return before anything happens: no request is issued, the
collection is untouched, and neither an error notification nor the success
modal appears — a todo with numeric id 0 can never be deleted through this
path. -/
theorem C10_falsy_pending_id_silent_noop :
    ∀ todos (resp : Except JsError Unit),
      handleConfirmDelete todos (some 0) resp
          = { todos := todos, errorNotes := [], successModal := none,
              requestIssued := false, validationMessageShown := false }
        ∧ handleConfirmDelete todos none resp
          = { todos := todos, errorNotes := [], successModal := none,
              requestIssued := false, validationMessageShown := false } := by
  intro todos resp
  exact ⟨rfl, rfl⟩

/-- C8 fails on the list view's initial load: `fetchTodos`' catch block
never reads the response body. Here the failure carries the structured
body message "boom", yet the surfaced message is built from the status
line instead. -/
theorem C8_counterexample :
    fetchTodosErrorMessage respWithBodyMessage = "Error: 500 - Internal Server Error"
      ∧ fetchTodosErrorMessage respWithBodyMessage ≠ "boom" := by
  constructor
  · rfl
  · decide

/-- C8 (amended): every data-source failure is mapped to exactly one
message, but the preference order differs by view. The detail view follows
the claimed order — structured response-body message first, else the
transport-level message, else a generic fallback. The list view's initial
load instead maps a response-bearing failure to
`Error: {status} - {statusText or "Server Error"}` (ignoring any body
message), a request without response to a fixed network message, and
otherwise uses the transport message; a non-Error thrown value keeps the
generic fallback. -/
theorem C8_error_message_mapping :
    (∀ r reqP msg, fetchTodosErrorMessage (.axios (some r) reqP msg)
        = "Error: " ++ toString r.status ++ " - "
            ++ (if r.statusText = "" then "Server Error" else r.statusText))
      ∧ (∀ msg, fetchTodosErrorMessage (.axios none true msg)
          = "Network error. No response received from server.")
      ∧ (∀ msg, fetchTodosErrorMessage (.axios none false msg) = msg)
      ∧ (∀ m, fetchTodosErrorMessage (.plain m) = m)
      ∧ fetchTodosErrorMessage .other = "Oops! Failed to load todos."
      ∧ (∀ e dm, jsErrDataMessage e = some dm → dm ≠ "" →
          fetchTodoErrorMessage e = dm)
      ∧ (∀ e, jsErrDataMessage e = none → jsErrMessage e ≠ "" →
          fetchTodoErrorMessage e = jsErrMessage e)
      ∧ (∀ e, jsErrDataMessage e = none → jsErrMessage e = "" →
          fetchTodoErrorMessage e = "An unexpected error occurred") := by
  refine ⟨fun _ _ _ => rfl, fun _ => rfl, fun _ => rfl, fun _ => rfl, rfl, ?_, ?_, ?_⟩
  · intro e dm hdm hne
    simp [fetchTodoErrorMessage, hdm, truthyOr, hne]
  · intro e hdm hne
    simp [fetchTodoErrorMessage, hdm, truthyOr, hne]
  · intro e hdm hme
    simp [fetchTodoErrorMessage, hdm, truthyOr, hme]

/-- Witness for C8 (amended): the same failure that drove the
counterexample is mapped by the detail view to its body message "boom",
and a bare network failure maps to the transport message. -/
theorem C8_error_message_mapping_witness :
    fetchTodoErrorMessage respWithBodyMessage = "boom"
      ∧ fetchTodoErrorMessage (.plain "Network Error") = "Network Error"
      ∧ fetchTodoErrorMessage .other = "An unexpected error occurred" :=
  ⟨C8_error_message_mapping.2.2.2.2.2.1 respWithBodyMessage "boom" rfl (by decide),
   C8_error_message_mapping.2.2.2.2.2.2.1 (.plain "Network Error") rfl (by decide),
   C8_error_message_mapping.2.2.2.2.2.2.2 .other rfl rfl⟩

/-! Helper lemmas for the read-path pipeline. -/

/-- The source's filter chain equals the spec-side two-stage filter. -/
theorem filteredAndSearched_eq_spec (todos : List Todo) (fs : FilterStatus) (term : String) :
    filteredAndSearchedTodos todos fs term
      = specSearchFilter (specStatusFilter todos fs) term := by
  cases fs <;> by_cases h : term = "" <;>
    simp [filteredAndSearchedTodos, specSearchFilter, specStatusFilter, h]

/-- Taking `min n (length)` elements is the same as taking `n`. -/
theorem take_min_length {α : Type} (l : List α) (n : Nat) :
    l.take (min n l.length) = l.take n := by
  rw [← List.take_take, List.take_length]

/-- `Array.prototype.slice(A, A + 10)` at a non-negative start equals
drop-then-take. -/
theorem jsSlice_page {α : Type} (l : List α) (A : Nat) :
    jsSlice l (A : Int) ((A : Int) + 10) = (l.drop A).take 10 := by
  simp only [jsSlice]
  rw [if_neg (by omega), if_neg (by omega)]
  have hs : (min (A : Int) (l.length : Int)).toNat = min A l.length := by omega
  have he : (min ((A : Int) + 10) (l.length : Int)).toNat = min (A + 10) l.length := by omega
  rw [hs, he]
  by_cases h : l.length ≤ A
  · have h1 : min A l.length = l.length := Nat.min_eq_right h
    have h2 : min (A + 10) l.length = l.length := Nat.min_eq_right (by omega)
    rw [h1, h2, Nat.sub_self, List.drop_eq_nil_of_le h,
      List.drop_eq_nil_of_le (Nat.le_refl _)]
    rfl
  · have hA : A ≤ l.length := by omega
    rw [Nat.min_eq_left hA]
    have h2 : min (A + 10) l.length - A = min 10 (l.length - A) := by omega
    rw [h2, ← List.length_drop, take_min_length]

/-- C5: for every collection, filter, search term and page `cp ≥ 1`, the
rendered page equals the spec-side pipeline — status filter (identity for
`all`), then case-insensitive title-substring filter (identity for the
empty term), then the slice `[(cp-1)*10, cp*10)`; `totalPages` is the
least page count covering the filtered list (i.e. the ceiling of its
length over 10, never negative); and the derivation is pure, so
recomputing it with unchanged inputs yields the identical page. -/
theorem C5_derivation_pipeline :
    ∀ (todos : List Todo) (fs : FilterStatus) (term : String) (cp : Int), 1 ≤ cp →
      currentTodos todos fs term cp = specVisiblePage todos fs term cp
        ∧ (filteredAndSearchedTodos todos fs term).length
            ≤ 10 * totalPagesOf (filteredAndSearchedTodos todos fs term)
        ∧ (∀ m : Nat, (filteredAndSearchedTodos todos fs term).length ≤ 10 * m →
            totalPagesOf (filteredAndSearchedTodos todos fs term) ≤ m)
        ∧ currentTodos todos fs term cp = currentTodos todos fs term cp := by
  intro todos fs term cp hcp
  refine ⟨?_, ?_, ?_, rfl⟩
  · obtain ⟨k, hk⟩ : ∃ k : Nat, cp = (k : Int) + 1 := ⟨(cp - 1).toNat, by omega⟩
    subst hk
    simp only [currentTodos, specVisiblePage, todosPerPage]
    have h1 : ((k : Int) + 1) * (10 : Nat) - (10 : Nat) = ((10 * k : Nat) : Int) := by
      push_cast
      ring
    have h2 : ((k : Int) + 1) * (10 : Nat) = ((10 * k : Nat) : Int) + 10 := by
      push_cast
      ring
    rw [h1, h2, jsSlice_page, filteredAndSearched_eq_spec]
    have h3 : (((k : Int) + 1 - 1) * 10).toNat = 10 * k := by omega
    rw [h3]
  · unfold totalPagesOf todosPerPage
    omega
  · intro m hm
    unfold totalPagesOf todosPerPage
    omega

/-- Witness for C5 at a concrete collection and page 1. -/
theorem C5_derivation_pipeline_witness :
    currentTodos [tA, tB] .completed "" 1 = specVisiblePage [tA, tB] .completed "" 1
      ∧ (filteredAndSearchedTodos [tA, tB] .completed "").length
          ≤ 10 * totalPagesOf (filteredAndSearchedTodos [tA, tB] .completed "")
      ∧ totalPagesOf (filteredAndSearchedTodos [tA, tB] .completed "") ≤ 1 :=
  ⟨(C5_derivation_pipeline [tA, tB] .completed "" 1 (by decide)).1,
   (C5_derivation_pipeline [tA, tB] .completed "" 1 (by decide)).2.1,
   (C5_derivation_pipeline [tA, tB] .completed "" 1 (by decide)).2.2.1 1 (by decide)⟩

/-- For more than five pages and an in-range current page, the window
computed by `renderPageNumbers` is five consecutive pages containing the
current page, inside `[1, totalPages]`. -/
theorem pageWindow_five_window (tp cp : Nat) (h5 : 5 < tp) (h1 : 1 ≤ cp) (hle : cp ≤ tp) :
    ∃ sp, pageWindow tp cp = (sp, sp + 4)
      ∧ 1 ≤ sp ∧ sp ≤ cp ∧ cp ≤ sp + 4 ∧ sp + 4 ≤ tp := by
  simp only [pageWindow]
  by_cases hcp : cp ≤ 3
  · have hs : max 1 (cp - 2) = 1 := by omega
    rw [hs]
    have he : min tp (1 + 4) = 1 + 4 := by omega
    rw [he, if_neg (by omega)]
    exact ⟨1, rfl, by omega, by omega, by omega, by omega⟩
  · have hs : max 1 (cp - 2) = cp - 2 := by omega
    rw [hs]
    by_cases hend : tp ≤ cp + 2
    · have he : min tp (cp - 2 + 4) = tp := by omega
      rw [he, if_pos rfl]
      refine ⟨tp - 4, ?_, by omega, by omega, by omega, by omega⟩
      have ha : max 1 (tp - 4) = tp - 4 := by omega
      have hb : tp = tp - 4 + 4 := by omega
      rw [ha]
      exact congrArg (fun x => (tp - 4, x)) hb
    · have he : min tp (cp - 2 + 4) = cp - 2 + 4 := by omega
      rw [he, if_neg (by omega)]
      exact ⟨cp - 2, rfl, by omega, by omega, by omega, by omega⟩

/-- C9: with at most five pages the buttons are exactly `1..totalPages`
with no ellipsis; with more, a window of five consecutive pages containing
the (in-range) current page is shown, preceded by page 1 — plus an
ellipsis when the window starts after page 2 — whenever the window does
not start at 1, and followed by the last page — plus an ellipsis when the
window ends before `totalPages - 1` — whenever it does not end at
`totalPages`. And 23 filtered todos at page size 10 give 3 total pages
with buttons `[1, 2, 3]`. -/
theorem C9_page_number_controls :
    (∀ tp cp, tp ≤ 5 → renderPageNumbers tp cp = (List.range' 1 tp).map PageItem.num)
      ∧ (∀ tp cp, 5 < tp → 1 ≤ cp → cp ≤ tp → ∃ sp,
          1 ≤ sp ∧ sp ≤ cp ∧ cp ≤ sp + 4 ∧ sp + 4 ≤ tp
            ∧ renderPageNumbers tp cp
              = (if sp = 1 then []
                 else if sp = 2 then [PageItem.num 1]
                 else [PageItem.num 1, PageItem.dots])
                ++ (List.range' sp 5).map PageItem.num
                ++ (if sp + 4 = tp then []
                    else if sp + 4 = tp - 1 then [PageItem.num tp]
                    else [PageItem.dots, PageItem.num tp]))
      ∧ (∀ l : List Todo, l.length = 23 → totalPagesOf l = 3)
      ∧ renderPageNumbers 3 1 = [PageItem.num 1, PageItem.num 2, PageItem.num 3] := by
  refine ⟨?_, ?_, ?_, by decide⟩
  · intro tp cp h
    simp [renderPageNumbers, h]
  · intro tp cp h5 h1 hle
    obtain ⟨sp, hw, hsp1, hspcp, hcpsp, hsptp⟩ := pageWindow_five_window tp cp h5 h1 hle
    refine ⟨sp, hsp1, hspcp, hcpsp, hsptp, ?_⟩
    simp only [renderPageNumbers, hw]
    rw [if_neg (by omega)]
    have hc : sp + 4 + 1 - sp = 5 := by omega
    rw [hc]
    split_ifs <;> first | omega | simp
  · intro l h
    simp [totalPagesOf, todosPerPage, h]

/-- Witness for C9: 10 pages with current page 7 — and the 23-todo
scenario through a concrete 23-element collection. -/
theorem C9_page_number_controls_witness :
    (∃ sp, 1 ≤ sp ∧ sp ≤ 7 ∧ 7 ≤ sp + 4 ∧ sp + 4 ≤ 10
        ∧ renderPageNumbers 10 7
          = (if sp = 1 then []
             else if sp = 2 then [PageItem.num 1]
             else [PageItem.num 1, PageItem.dots])
            ++ (List.range' sp 5).map PageItem.num
            ++ (if sp + 4 = 10 then []
                else if sp + 4 = 10 - 1 then [PageItem.num 10]
                else [PageItem.dots, PageItem.num 10]))
      ∧ totalPagesOf (List.replicate 23 tA) = 3
      ∧ renderPageNumbers 4 2 = (List.range' 1 4).map PageItem.num :=
  ⟨C9_page_number_controls.2.1 10 7 (by decide) (by decide) (by decide),
   C9_page_number_controls.2.2.1 (List.replicate 23 tA) (by simp),
   C9_page_number_controls.1 4 2 (by decide)⟩

end TodoApp

